import Mathlib

/-!
Verification of the DVD LPCM decoder element
(`src/gst/dvdlpcmdec/gstdvdlpcmdec.c`).

The decoder state (`GstDvdLpcmDec`), the header parser (`parse_header`,
lines 272-306), the timestamp cursor (`update_timestamps`, lines 256-270),
the raw converter (`gst_dvdlpcmdec_chain_raw`, lines 425-585) and the
DVD framer (`gst_dvdlpcmdec_chain_dvd`, lines 308-423) are embedded as
executable Lean functions.  Buffers are lists of byte values (`Nat`),
clock times are nanosecond counts (`Nat`), and `GST_CLOCK_TIME_NONE` is
represented by `Option.none` on buffer timestamps.  External pipeline
conditions (source pad usable, buffer allocation succeeding, downstream
accepting proposed caps) are parameters collected in `Env`.
-/

/-- Decoder element state: the fields of `struct _GstDvdLpcmDec` that the
decoding logic reads or writes (pads and GObject plumbing are external). -/
structure GstDvdLpcmDec where
  rate : Nat
  channels : Nat
  width : Nat
  out_width : Nat
  dynamic_range : Nat
  emphasis : Bool
  mute : Bool
  timestamp : Nat
  header : Nat
deriving DecidableEq

/-- `GST_SECOND` in nanoseconds. -/
def GST_SECOND : Nat := 1000000000

/-- External pipeline conditions seen by the element: whether the source pad
is usable, whether `gst_pad_alloc_buffer` succeeds, and whether downstream
accepts caps proposed as (rate, channels, out_width). -/
structure Env where
  srcUsable : Bool
  allocOk : Bool
  acceptCaps : Nat → Nat → Nat → Bool

/-- An input buffer: payload bytes plus an optional timestamp
(`none` models `GST_CLOCK_TIME_NONE`). -/
structure InBuf where
  data : List Nat
  timestamp : Option Nat
deriving DecidableEq

/-- A buffer pushed downstream: payload bytes, the timestamp and the
duration set on it. -/
structure OutBuf where
  data : List Nat
  timestamp : Nat
  duration : Nat
deriving DecidableEq

/-- `GstFlowReturn` values produced by the chain functions. -/
inductive GstFlow where
  | ok
  | notNegotiated
  | notLinked
  | error
deriving DecidableEq

/-- Result of `gst_dvdlpcmdec_chain_raw`: the (possibly updated) element
state, the buffers pushed downstream, and the flow return. -/
structure RawRes where
  dec : GstDvdLpcmDec
  outs : List OutBuf
  flow : GstFlow
deriving DecidableEq

/-- Result of `gst_dvdlpcmdec_chain_dvd`: final element state, the
sub-buffers forwarded to `gst_dvdlpcmdec_chain_raw` (in order), the buffers
pushed downstream, the flow return, and how many caps renegotiations were
proposed to downstream. -/
structure DvdRes where
  dec : GstDvdLpcmDec
  trace : List InBuf
  outs : List OutBuf
  flow : GstFlow
  renegs : Nat
deriving DecidableEq

/-- `parse_header` (lines 272-306): decode the 24-bit header word into the
element state fields. -/
def parse_header (dec : GstDvdLpcmDec) (header : Nat) : GstDvdLpcmDec :=
  { dec with
    dynamic_range := header &&& 0xff
    mute := header &&& 0x400000 != 0
    emphasis := header &&& 0x800000 != 0
    width := if header &&& 0xC000 = 0x8000 then 24
             else if header &&& 0xC000 = 0x4000 then 20 else 16
    out_width := if header &&& 0xC000 = 0x8000 then 24
                 else if header &&& 0xC000 = 0x4000 then 24 else 16
    rate := if header &&& 0x1000 != 0 then 96000 else 48000
    channels := ((header >>> 8) &&& 0x7) + 1 }

/-- `update_timestamps` (lines 256-270): set the buffer duration from the
sample count; an incoming valid timestamp overwrites the cursor, otherwise
the cursor advances by the duration and stamps the buffer.  Returns the new
element state, the buffer's timestamp, and the buffer's duration. -/
def update_timestamps (dec : GstDvdLpcmDec) (ts : Option Nat) (samples : Nat) :
    GstDvdLpcmDec × Nat × Nat :=
  let dur := samples * GST_SECOND / dec.rate
  match ts with
  | some t => ({ dec with timestamp := t }, t, dur)
  | none => ({ dec with timestamp := dec.timestamp + dur }, dec.timestamp + dur, dur)

/-- The 20-bit expansion loop of `gst_dvdlpcmdec_chain_raw` (lines 485-501):
each 10-byte input group yields a 12-byte output group in a newly allocated
buffer; `count = size / 10` groups are processed, a shorter tail produces
nothing. -/
def conv20 : List Nat → List Nat
  | s0 :: s1 :: s2 :: s3 :: s4 :: s5 :: s6 :: s7 :: s8 :: s9 :: rest =>
      s0 :: s1 :: (s8 &&& 0xf0) :: s2 :: s3 :: ((s8 &&& 0x0f) <<< 4) ::
      s4 :: s5 :: (s9 &&& 0x0f) :: s6 :: s7 :: ((s9 &&& 0x0f) <<< 4) :: conv20 rest
  | _ => []

/-- One iteration of the in-place 24-bit reorder loop (lines 521-536) on the
group starting at byte `12*i`: all nine `temp` bytes are read from the
current buffer contents (the C code fills `temp` before the `memcpy`), then
bytes `12*i+2 .. 12*i+10` are overwritten in sequence. -/
def conv24Step (buf : List Nat) (i : Nat) : List Nat :=
  ((((((((buf.set (12*i+2) (buf.getD (12*i+8) 0)).set (12*i+3) (buf.getD (12*i+2) 0)).set
      (12*i+4) (buf.getD (12*i+3) 0)).set (12*i+5) (buf.getD (12*i+9) 0)).set
      (12*i+6) (buf.getD (12*i+4) 0)).set (12*i+7) (buf.getD (12*i+5) 0)).set
      (12*i+8) (buf.getD (12*i+10) 0)).set (12*i+9) (buf.getD (12*i+6) 0)).set
      (12*i+10) (buf.getD (12*i+7) 0)

/-- The in-place 24-bit loop: run `conv24Step` for `i = first, first+1, ...`,
`count` times, threading the mutated buffer. -/
def conv24Go : Nat → Nat → List Nat → List Nat
  | _, 0, buf => buf
  | i, c+1, buf => conv24Go (i+1) c (conv24Step buf i)

/-- The 24-bit path of `gst_dvdlpcmdec_chain_raw` (lines 507-537): the
buffer is rearranged in place, `count = size / 12` groups. -/
def conv24InPlace (buf : List Nat) : List Nat :=
  conv24Go 0 (buf.length / 12) buf

/-- Modelled from the spec: the §4.3 24-bit mapping applied to an untouched
copy of each 12-byte group (`temp = [src8, src2, src3, src9, src4, src5,
src10, src6, src7]` replaces bytes 2-10; bytes 0, 1 and 11 stay fixed).
Used as the functional reference that the in-place code is compared
against for the refinement claim. -/
def conv24Spec : List Nat → List Nat
  | s0 :: s1 :: s2 :: s3 :: s4 :: s5 :: s6 :: s7 :: s8 :: s9 :: s10 :: s11 :: rest =>
      s0 :: s1 :: s8 :: s2 :: s3 :: s9 :: s4 :: s5 :: s10 :: s6 :: s7 :: s11 :: conv24Spec rest
  | l => l

/-- `gst_dvdlpcmdec_chain_raw` (lines 425-585).  Fails with
`notNegotiated` when no rate is set, `notLinked` on an unusable pad,
`error` when the 20-bit output allocation fails, and `notNegotiated` on an
unsupported width; otherwise converts and pushes exactly one buffer.
The outer C variable `samples` stays `0` on the 20-bit path (the case block
declares a shadowing inner `samples`), so `update_timestamps` receives 0
there. -/
def gst_dvdlpcmdec_chain_raw (env : Env) (dec : GstDvdLpcmDec) (buf : InBuf) : RawRes :=
  let size := buf.data.length
  if dec.rate = 0 then ⟨dec, [], GstFlow.notNegotiated⟩
  else if env.srcUsable = false then ⟨dec, [], GstFlow.notLinked⟩
  else if dec.width = 16 then
    let samples := size / dec.channels / 2
    let u := update_timestamps dec buf.timestamp samples
    ⟨u.1, [⟨buf.data, u.2.1, u.2.2⟩], GstFlow.ok⟩
  else if dec.width = 20 then
    if env.allocOk = false then ⟨dec, [], GstFlow.error⟩
    else
      let u := update_timestamps dec buf.timestamp 0
      ⟨u.1, [⟨conv20 buf.data, u.2.1, u.2.2⟩], GstFlow.ok⟩
  else if dec.width = 24 then
    let samples := size / dec.channels / 3
    let u := update_timestamps dec buf.timestamp samples
    ⟨u.1, [⟨conv24InPlace buf.data, u.2.1, u.2.2⟩], GstFlow.ok⟩
  else ⟨dec, [], GstFlow.notNegotiated⟩

/-- `first_access` (line 332): big-endian 16-bit offset in bytes 0-1. -/
def first_access (data : List Nat) : Nat :=
  (data.getD 0 0) <<< 8 ||| data.getD 1 0

/-- The 24-bit header word (line 333): big-endian value of bytes 2-4. -/
def header_word (data : List Nat) : Nat :=
  (data.getD 2 0) <<< 16 ||| (data.getD 3 0) <<< 8 ||| data.getD 4 0

/-- The header-change block of `gst_dvdlpcmdec_chain_dvd` (lines 335-359):
if the chunk's header word differs from the stored one, re-parse it and
propose new caps downstream; only on acceptance is the stored header word
updated.  Returns the state, the number of caps proposals (0 or 1) and
whether processing may continue. -/
def negotiate (env : Env) (dec : GstDvdLpcmDec) (hdr : Nat) : GstDvdLpcmDec × Nat × Bool :=
  if hdr = dec.header then (dec, 0, true)
  else
    let d := parse_header dec hdr
    if env.acceptCaps d.rate d.channels d.out_width then ({ d with header := hdr }, 1, true)
    else (d, 1, false)

/-- The splitting part of `gst_dvdlpcmdec_chain_dvd` (lines 364-407):
beyond the 5-byte header, split off `first_access - 4` bytes without
timestamp and the remainder with the chunk's timestamp when
`first_access > 4`; otherwise forward a single sub-buffer without
timestamp.  Returns final state, forwarded sub-buffers, pushed buffers and
flow. -/
def forward (env : Env) (dec : GstDvdLpcmDec) (data : List Nat) (ts : Option Nat) :
    GstDvdLpcmDec × List InBuf × List OutBuf × GstFlow :=
  let fa := first_access data
  if 4 < fa then
    let len := fa - 4
    if 0 < len then
      let sub1 : InBuf := ⟨(data.drop 5).take len, none⟩
      let r1 := gst_dvdlpcmdec_chain_raw env dec sub1
      if r1.flow = GstFlow.ok then
        let sub2 : InBuf := ⟨data.drop (5 + len), ts⟩
        let r2 := gst_dvdlpcmdec_chain_raw env r1.dec sub2
        (r2.dec, [sub1, sub2], r1.outs ++ r2.outs, r2.flow)
      else (r1.dec, [sub1], r1.outs, r1.flow)
    else
      let sub2 : InBuf := ⟨data.drop (5 + len), ts⟩
      let r2 := gst_dvdlpcmdec_chain_raw env dec sub2
      (r2.dec, [sub2], r2.outs, r2.flow)
  else
    let sub : InBuf := ⟨data.drop 5, none⟩
    let r := gst_dvdlpcmdec_chain_raw env dec sub
    (r.dec, [sub], r.outs, r.flow)

/-- `gst_dvdlpcmdec_chain_dvd` (lines 308-423): run the header-change
check, then split and forward; a failed renegotiation aborts the chunk
with `error` before any sub-buffer is forwarded. -/
def gst_dvdlpcmdec_chain_dvd (env : Env) (dec : GstDvdLpcmDec) (buf : InBuf) : DvdRes :=
  let n := negotiate env dec (header_word buf.data)
  if n.2.2 = false then ⟨n.1, [], [], GstFlow.error, n.2.1⟩
  else
    let f := forward env n.1 buf.data buf.timestamp
    ⟨f.1, f.2.1, f.2.2.1, f.2.2.2, n.2.1⟩

/-! ### Bit-arithmetic helpers -/

lemma and_mask_ff (h : Nat) : h &&& 0xff = h % 256 := by
  have e := Nat.and_pow_two_sub_one_eq_mod h 8
  norm_num at e
  exact e

lemma and_mask_7 (h : Nat) : h &&& 0x7 = h % 8 := by
  have e := Nat.and_pow_two_sub_one_eq_mod h 3
  norm_num at e
  exact e

lemma and_two_pow_ne_zero (h i : Nat) : (h &&& 2^i != 0) = h.testBit i := by
  rw [Nat.and_two_pow]
  cases hb : h.testBit i
  · simp
  · have hp : 2 ^ i ≠ 0 := (Nat.pos_pow_of_pos i (by norm_num)).ne'
    simp [hp]

lemma and_mask_c000 (h : Nat) : h &&& 0xC000 = h / 16384 % 4 * 16384 := by
  have ec : h &&& 0xC000 = (h &&& 32768) ||| (h &&& 16384) := by
    rw [show (0xC000 : Nat) = 32768 ||| 16384 from rfl, Nat.and_or_distrib_left]
  have e15 := Nat.and_two_pow h 15
  have e14 := Nat.and_two_pow h 14
  have t15 : h.testBit 15 = decide (h / 32768 % 2 = 1) := Nat.testBit_to_div_mod
  have t14 : h.testBit 14 = decide (h / 16384 % 2 = 1) := Nat.testBit_to_div_mod
  norm_num at e15 e14
  rw [ec]
  cases hb15 : h.testBit 15 <;> cases hb14 : h.testBit 14 <;>
      rw [hb15] at e15 t15 <;> rw [hb14] at e14 t14
  · have T15 : ¬ (h / 32768 % 2 = 1) := of_decide_eq_false t15.symm
    have T14 : ¬ (h / 16384 % 2 = 1) := of_decide_eq_false t14.symm
    simp only [Bool.toNat_false, zero_mul] at e15 e14
    rw [e15, e14]
    simp only [Nat.or_zero]
    omega
  · have T15 : ¬ (h / 32768 % 2 = 1) := of_decide_eq_false t15.symm
    have T14 : h / 16384 % 2 = 1 := of_decide_eq_true t14.symm
    simp only [Bool.toNat_false, Bool.toNat_true, zero_mul, one_mul] at e15 e14
    rw [e15, e14]
    simp only [Nat.zero_or]
    omega
  · have T15 : h / 32768 % 2 = 1 := of_decide_eq_true t15.symm
    have T14 : ¬ (h / 16384 % 2 = 1) := of_decide_eq_false t14.symm
    simp only [Bool.toNat_false, Bool.toNat_true, zero_mul, one_mul] at e15 e14
    rw [e15, e14]
    simp only [Nat.or_zero]
    omega
  · have T15 : h / 32768 % 2 = 1 := of_decide_eq_true t15.symm
    have T14 : h / 16384 % 2 = 1 := of_decide_eq_true t14.symm
    simp only [Bool.toNat_true, one_mul] at e15 e14
    rw [e15, e14, show (32768 ||| 16384 : Nat) = 49152 from by decide]
    omega

/-- C1: for every header word `h`, `parse_header` sets `dynamic_range` to the
low byte, `mute` to bit 22, `emphasis` to bit 23, `width` to 24 / 20 / 16 as
bits [15:14] are 0b10 / 0b01 / other, `rate` to 96000 or 48000 as bit 12 is
set or clear, and `channels` to bits [10:8] plus one; it succeeds (yielding
the 16-bit fallback) on every bit pattern. -/
theorem parse_header_bit_layout (dec : GstDvdLpcmDec) (h : Nat) :
    (parse_header dec h).dynamic_range = h % 256 ∧
    (parse_header dec h).mute = h.testBit 22 ∧
    (parse_header dec h).emphasis = h.testBit 23 ∧
    (parse_header dec h).width =
      (if (h >>> 14) % 4 = 2 then 24 else if (h >>> 14) % 4 = 1 then 20 else 16) ∧
    (parse_header dec h).rate = (if h.testBit 12 then 96000 else 48000) ∧
    (parse_header dec h).channels = (h >>> 8) % 8 + 1 := by
  refine ⟨and_mask_ff h, ?_, ?_, ?_, ?_, ?_⟩
  · show (h &&& 0x400000 != 0) = h.testBit 22
    have e := and_two_pow_ne_zero h 22
    norm_num at e
    exact e
  · show (h &&& 0x800000 != 0) = h.testBit 23
    have e := and_two_pow_ne_zero h 23
    norm_num at e
    exact e
  · show (if h &&& 0xC000 = 0x8000 then 24 else if h &&& 0xC000 = 0x4000 then 20 else 16)
        = (if (h >>> 14) % 4 = 2 then 24 else if (h >>> 14) % 4 = 1 then 20 else 16)
    rw [and_mask_c000, Nat.shiftRight_eq_div_pow]
    norm_num
    split_ifs <;> omega
  · show (if (h &&& 0x1000 != 0) = true then 96000 else 48000)
        = (if h.testBit 12 = true then 96000 else 48000)
    have e := and_two_pow_ne_zero h 12
    norm_num at e
    rw [e]
  · show ((h >>> 8) &&& 0x7) + 1 = (h >>> 8) % 8 + 1
    rw [and_mask_7]

/-- C8: `update_timestamps` sets the duration to `samples * GST_SECOND /
rate`; a valid incoming timestamp overwrites the cursor (and the buffer
keeps it), otherwise the cursor advances by exactly the duration and the
buffer is stamped with the advanced cursor; in particular at 48000 Hz
with no incoming timestamp the cursor advances by
`samples * GST_SECOND / 48000`. -/
theorem update_timestamps_cursor (dec : GstDvdLpcmDec) (ts : Option Nat) (samples : Nat) :
    (update_timestamps dec ts samples).2.2 = samples * GST_SECOND / dec.rate ∧
    (∀ t, ts = some t → (update_timestamps dec ts samples).1.timestamp = t ∧
      (update_timestamps dec ts samples).2.1 = t) ∧
    (ts = none →
      (update_timestamps dec ts samples).1.timestamp
          = dec.timestamp + samples * GST_SECOND / dec.rate ∧
      (update_timestamps dec ts samples).2.1
          = dec.timestamp + samples * GST_SECOND / dec.rate) ∧
    (dec.rate = 48000 → ts = none →
      (update_timestamps dec ts samples).1.timestamp
          = dec.timestamp + samples * GST_SECOND / 48000) := by
  cases ts <;> simp [update_timestamps] <;> intro h48 <;> rw [h48]

theorem update_timestamps_cursor_witness :
    (update_timestamps ⟨48000, 2, 16, 16, 0, false, false, 100, 0⟩ none 480).1.timestamp
      = 100 + 480 * GST_SECOND / 48000 :=
  (update_timestamps_cursor ⟨48000, 2, 16, 16, 0, false, false, 100, 0⟩ none 480).2.2.2 rfl rfl

/-! ### List helpers -/

lemma drop_append_length (P T : List Nat) (n : Nat) :
    (P ++ T).drop (P.length + n) = T.drop n := by
  induction P with
  | nil => simp
  | cons a P ih =>
    rw [show (a :: P).length + n = (P.length + n) + 1 from by
      simp only [List.length_cons]; omega]
    rw [List.cons_append, List.drop_succ_cons]
    exact ih

lemma exists_cons10 (l : List Nat) (h : 10 ≤ l.length) :
    ∃ s0 s1 s2 s3 s4 s5 s6 s7 s8 s9 rest,
      l = s0 :: s1 :: s2 :: s3 :: s4 :: s5 :: s6 :: s7 :: s8 :: s9 :: rest := by
  rcases l with _ | ⟨s0, l⟩; · simp at h
  rcases l with _ | ⟨s1, l⟩; · simp at h
  rcases l with _ | ⟨s2, l⟩; · simp at h
  rcases l with _ | ⟨s3, l⟩; · simp at h
  rcases l with _ | ⟨s4, l⟩; · simp at h
  rcases l with _ | ⟨s5, l⟩; · simp at h
  rcases l with _ | ⟨s6, l⟩; · simp at h
  rcases l with _ | ⟨s7, l⟩; · simp at h
  rcases l with _ | ⟨s8, l⟩; · simp at h
  rcases l with _ | ⟨s9, l⟩; · simp at h
  exact ⟨s0, s1, s2, s3, s4, s5, s6, s7, s8, s9, l, rfl⟩

lemma exists_cons12 (l : List Nat) (h : 12 ≤ l.length) :
    ∃ s0 s1 s2 s3 s4 s5 s6 s7 s8 s9 s10 s11 rest,
      l = s0 :: s1 :: s2 :: s3 :: s4 :: s5 :: s6 :: s7 :: s8 :: s9 :: s10 :: s11 :: rest := by
  rcases l with _ | ⟨s0, l⟩; · simp at h
  rcases l with _ | ⟨s1, l⟩; · simp at h
  rcases l with _ | ⟨s2, l⟩; · simp at h
  rcases l with _ | ⟨s3, l⟩; · simp at h
  rcases l with _ | ⟨s4, l⟩; · simp at h
  rcases l with _ | ⟨s5, l⟩; · simp at h
  rcases l with _ | ⟨s6, l⟩; · simp at h
  rcases l with _ | ⟨s7, l⟩; · simp at h
  rcases l with _ | ⟨s8, l⟩; · simp at h
  rcases l with _ | ⟨s9, l⟩; · simp at h
  rcases l with _ | ⟨s10, l⟩; · simp at h
  rcases l with _ | ⟨s11, l⟩; · simp at h
  exact ⟨s0, s1, s2, s3, s4, s5, s6, s7, s8, s9, s10, s11, l, rfl⟩

lemma conv20_short (l : List Nat) (h : l.length < 10) : conv20 l = [] := by
  rcases l with _ | ⟨s0, l⟩; · rfl
  rcases l with _ | ⟨s1, l⟩; · rfl
  rcases l with _ | ⟨s2, l⟩; · rfl
  rcases l with _ | ⟨s3, l⟩; · rfl
  rcases l with _ | ⟨s4, l⟩; · rfl
  rcases l with _ | ⟨s5, l⟩; · rfl
  rcases l with _ | ⟨s6, l⟩; · rfl
  rcases l with _ | ⟨s7, l⟩; · rfl
  rcases l with _ | ⟨s8, l⟩; · rfl
  rcases l with _ | ⟨s9, l⟩; · rfl
  simp only [List.length_cons] at h
  omega

lemma conv20_length_aux :
    ∀ (n : Nat) (l : List Nat), l.length ≤ n → (conv20 l).length = 12 * (l.length / 10) := by
  intro n
  induction n with
  | zero =>
    intro l hl
    rw [conv20_short l (by omega)]
    simp only [List.length_nil]
    omega
  | succ n ih =>
    intro l hl
    by_cases h10 : 10 ≤ l.length
    · obtain ⟨s0, s1, s2, s3, s4, s5, s6, s7, s8, s9, rest, rfl⟩ := exists_cons10 l h10
      have e : conv20 (s0 :: s1 :: s2 :: s3 :: s4 :: s5 :: s6 :: s7 :: s8 :: s9 :: rest) =
          s0 :: s1 :: (s8 &&& 0xf0) :: s2 :: s3 :: ((s8 &&& 0x0f) <<< 4) ::
          s4 :: s5 :: (s9 &&& 0x0f) :: s6 :: s7 :: ((s9 &&& 0x0f) <<< 4) :: conv20 rest := rfl
      rw [e]
      simp only [List.length_cons] at hl ⊢
      rw [ih rest (by omega)]
      omega
    · rw [conv20_short l (by omega)]
      simp only [List.length_nil]
      omega

lemma conv20_length (l : List Nat) : (conv20 l).length = 12 * (l.length / 10) :=
  conv20_length_aux l.length l le_rfl

lemma conv20_group_aux :
    ∀ (k : Nat) (l : List Nat), 10 * k + 10 ≤ l.length →
    ((conv20 l).drop (12 * k)).take 12 =
      [l.getD (10*k) 0, l.getD (10*k+1) 0, l.getD (10*k+8) 0 &&& 0xf0,
       l.getD (10*k+2) 0, l.getD (10*k+3) 0, (l.getD (10*k+8) 0 &&& 0x0f) <<< 4,
       l.getD (10*k+4) 0, l.getD (10*k+5) 0, l.getD (10*k+9) 0 &&& 0x0f,
       l.getD (10*k+6) 0, l.getD (10*k+7) 0, (l.getD (10*k+9) 0 &&& 0x0f) <<< 4] := by
  intro k
  induction k with
  | zero =>
    intro l hk
    obtain ⟨s0, s1, s2, s3, s4, s5, s6, s7, s8, s9, rest, rfl⟩ := exists_cons10 l (by omega)
    rfl
  | succ k ih =>
    intro l hk
    obtain ⟨s0, s1, s2, s3, s4, s5, s6, s7, s8, s9, rest, rfl⟩ := exists_cons10 l (by omega)
    have hrest : 10 * k + 10 ≤ rest.length := by
      simp only [List.length_cons] at hk
      omega
    have e : conv20 (s0 :: s1 :: s2 :: s3 :: s4 :: s5 :: s6 :: s7 :: s8 :: s9 :: rest) =
        [s0, s1, s8 &&& 0xf0, s2, s3, (s8 &&& 0x0f) <<< 4,
         s4, s5, s9 &&& 0x0f, s6, s7, (s9 &&& 0x0f) <<< 4] ++ conv20 rest := rfl
    have hget : ∀ j : Nat,
        (s0 :: s1 :: s2 :: s3 :: s4 :: s5 :: s6 :: s7 :: s8 :: s9 :: rest).getD (10*(k+1)+j) 0
          = rest.getD (10*k+j) 0 := by
      intro j
      have ha : (s0 :: s1 :: s2 :: s3 :: s4 :: s5 :: s6 :: s7 :: s8 :: s9 :: rest)
          = [s0, s1, s2, s3, s4, s5, s6, s7, s8, s9] ++ rest := rfl
      rw [ha, List.getD_append_right _ _ _ _ (by simp only [List.length_cons, List.length_nil]; omega)]
      simp only [List.length_cons, List.length_nil]
      congr 1
      omega
    have hget0 :
        (s0 :: s1 :: s2 :: s3 :: s4 :: s5 :: s6 :: s7 :: s8 :: s9 :: rest).getD (10*(k+1)) 0
          = rest.getD (10*k) 0 := by
      have := hget 0
      simpa using this
    rw [e, show 12 * (k+1) = [s0, s1, s8 &&& 0xf0, s2, s3, (s8 &&& 0x0f) <<< 4,
         s4, s5, s9 &&& 0x0f, s6, s7, (s9 &&& 0x0f) <<< 4].length + 12 * k from by
       simp only [List.length_cons, List.length_nil]; omega]
    rw [drop_append_length]
    rw [hget0, hget 1, hget 2, hget 3, hget 4, hget 5, hget 6, hget 7, hget 8, hget 9]
    exact ih rest hrest

/-- C2: on any input whose length is a multiple of 10, the 20-bit converter
produces `12 * (length / 10)` output bytes, and the `k`-th 12-byte output
group is exactly the documented function of the `k`-th 10-byte input group:
`dest0=src0, dest1=src1, dest2=src8&0xF0, dest3=src2, dest4=src3,
dest5=(src8&0x0F)<<4, dest6=src4, dest7=src5, dest8=src9&0x0F, dest9=src6,
dest10=src7, dest11=(src9&0x0F)<<4`. -/
theorem conv20_group_mapping (l : List Nat) (hlen : l.length % 10 = 0)
    (k : Nat) (hk : 10 * k + 10 ≤ l.length) :
    (conv20 l).length = 12 * (l.length / 10) ∧
    ((conv20 l).drop (12 * k)).take 12 =
      [l.getD (10*k) 0, l.getD (10*k+1) 0, l.getD (10*k+8) 0 &&& 0xf0,
       l.getD (10*k+2) 0, l.getD (10*k+3) 0, (l.getD (10*k+8) 0 &&& 0x0f) <<< 4,
       l.getD (10*k+4) 0, l.getD (10*k+5) 0, l.getD (10*k+9) 0 &&& 0x0f,
       l.getD (10*k+6) 0, l.getD (10*k+7) 0, (l.getD (10*k+9) 0 &&& 0x0f) <<< 4] :=
  ⟨conv20_length l, conv20_group_aux k l hk⟩

theorem conv20_group_mapping_witness :
    (conv20 [1,2,3,4,5,6,7,8,9,10]).length = 12 * ([1,2,3,4,5,6,7,8,9,10].length / 10) ∧
    ((conv20 [1,2,3,4,5,6,7,8,9,10]).drop (12 * 0)).take 12 =
      [[1,2,3,4,5,6,7,8,9,10].getD (10*0) 0, [1,2,3,4,5,6,7,8,9,10].getD (10*0+1) 0,
       [1,2,3,4,5,6,7,8,9,10].getD (10*0+8) 0 &&& 0xf0,
       [1,2,3,4,5,6,7,8,9,10].getD (10*0+2) 0, [1,2,3,4,5,6,7,8,9,10].getD (10*0+3) 0,
       ([1,2,3,4,5,6,7,8,9,10].getD (10*0+8) 0 &&& 0x0f) <<< 4,
       [1,2,3,4,5,6,7,8,9,10].getD (10*0+4) 0, [1,2,3,4,5,6,7,8,9,10].getD (10*0+5) 0,
       [1,2,3,4,5,6,7,8,9,10].getD (10*0+9) 0 &&& 0x0f,
       [1,2,3,4,5,6,7,8,9,10].getD (10*0+6) 0, [1,2,3,4,5,6,7,8,9,10].getD (10*0+7) 0,
       ([1,2,3,4,5,6,7,8,9,10].getD (10*0+9) 0 &&& 0x0f) <<< 4] :=
  conv20_group_mapping [1,2,3,4,5,6,7,8,9,10] (by decide) 0 (by decide)

/-- C3 counterexample: on the §8 test vector the 20-bit converter's output
byte 8 is `0x5A &&& 0x0F = 0x0A`, not `0x05` as the claim states. -/
theorem conv20_testvector_byte8_cex :
    ¬ ((conv20 [0x11,0x22,0x33,0x44,0x55,0x66,0x77,0x88,0xA5,0x5A]).getD 8 0 = 0x05) := by
  decide

/-- C3 amended: on the test vector `[0x11,0x22,0x33,0x44,0x55,0x66,0x77,
0x88,0xA5,0x5A]` the 20-bit converter produces bytes 2, 5 and 11 equal to
`0xA0`, `0x50` and `0xA0`, byte 8 equal to `0x0A` (the code keeps the low
nibble of `src9` unshifted there), and the remaining bytes copied per the
§4.3 mapping table. -/
theorem conv20_testvector_amended :
    conv20 [0x11,0x22,0x33,0x44,0x55,0x66,0x77,0x88,0xA5,0x5A]
      = [0x11,0x22,0xA0,0x33,0x44,0x50,0x55,0x66,0x0A,0x77,0x88,0xA0] := by
  decide

lemma conv24Step_zero (s0 s1 s2 s3 s4 s5 s6 s7 s8 s9 s10 s11 : Nat) (rest : List Nat) :
    conv24Step (s0 :: s1 :: s2 :: s3 :: s4 :: s5 :: s6 :: s7 :: s8 :: s9 :: s10 :: s11 :: rest) 0 =
      s0 :: s1 :: s8 :: s2 :: s3 :: s9 :: s4 :: s5 :: s10 :: s6 :: s7 :: s11 :: rest := rfl

lemma conv24Step_shift (g rest : List Nat) (hg : g.length = 12) (i : Nat) :
    conv24Step (g ++ rest) (i+1) = g ++ conv24Step rest i := by
  have hget : ∀ n : Nat, (g ++ rest).getD (12*(i+1)+n) 0 = rest.getD (12*i+n) 0 := by
    intro n
    rw [List.getD_append_right g rest 0 _ (by omega), hg,
      show 12*(i+1)+n-12 = 12*i+n from by omega]
  have hset : ∀ (l' : List Nat) (n v : Nat),
      (g ++ l').set (12*(i+1)+n) v = g ++ l'.set (12*i+n) v := by
    intro l' n v
    rw [List.set_append_right _ _ (by omega), hg,
      show 12*(i+1)+n-12 = 12*i+n from by omega]
  simp only [conv24Step, hget, hset]

lemma conv24Go_shift (g : List Nat) (hg : g.length = 12) :
    ∀ (c i : Nat) (rest : List Nat),
      conv24Go (i+1) c (g ++ rest) = g ++ conv24Go i c rest := by
  intro c
  induction c with
  | zero => intro i rest; rfl
  | succ c ih =>
    intro i rest
    show conv24Go (i+2) c (conv24Step (g ++ rest) (i+1))
        = g ++ conv24Go (i+1) c (conv24Step rest i)
    rw [conv24Step_shift g rest hg i]
    exact ih (i+1) (conv24Step rest i)

lemma conv24_equiv_aux : ∀ (c : Nat) (l : List Nat), l.length = 12 * c →
    conv24Go 0 c l = conv24Spec l := by
  intro c
  induction c with
  | zero =>
    intro l hl
    have hnil : l = [] := List.eq_nil_of_length_eq_zero (by omega)
    subst hnil
    rfl
  | succ c ih =>
    intro l hl
    obtain ⟨s0, s1, s2, s3, s4, s5, s6, s7, s8, s9, s10, s11, rest, rfl⟩ :=
      exists_cons12 l (by omega)
    show conv24Go 1 c
        (conv24Step (s0 :: s1 :: s2 :: s3 :: s4 :: s5 :: s6 :: s7 :: s8 :: s9 :: s10 :: s11 :: rest) 0)
      = conv24Spec (s0 :: s1 :: s2 :: s3 :: s4 :: s5 :: s6 :: s7 :: s8 :: s9 :: s10 :: s11 :: rest)
    rw [conv24Step_zero]
    have hg : conv24Go 1 c (s0 :: s1 :: s8 :: s2 :: s3 :: s9 :: s4 :: s5 :: s10 :: s6 :: s7 :: s11 :: rest)
        = [s0, s1, s8, s2, s3, s9, s4, s5, s10, s6, s7, s11] ++ conv24Go 0 c rest := by
      have e := conv24Go_shift [s0, s1, s8, s2, s3, s9, s4, s5, s10, s6, s7, s11]
        (by simp) c 0 rest
      exact e
    rw [hg, ih rest (by simp only [List.length_cons] at hl; omega)]
    rfl

/-- C4: on any input whose length is a multiple of 12, the in-place 24-bit
reorder loop (sequential `List.set` writes reading the current buffer)
computes exactly the §4.3 mapping applied to an untouched copy of each
group — bytes 0, 1, 11 unchanged, bytes 2-10 replaced by
`[src8, src2, src3, src9, src4, src5, src10, src6, src7]` of the group's
original values, never reading an already-overwritten byte — and applying
the transform twice does not restore the original byte order. -/
theorem conv24_inplace_refines_mapping (l : List Nat) (h : l.length % 12 = 0) :
    conv24InPlace l = conv24Spec l ∧
    conv24InPlace (conv24InPlace [0,1,2,3,4,5,6,7,8,9,10,11]) ≠ [0,1,2,3,4,5,6,7,8,9,10,11] := by
  constructor
  · exact conv24_equiv_aux (l.length / 12) l (by omega)
  · decide

theorem conv24_inplace_refines_mapping_witness :
    conv24InPlace [0,1,2,3,4,5,6,7,8,9,10,11] = conv24Spec [0,1,2,3,4,5,6,7,8,9,10,11] ∧
    conv24InPlace (conv24InPlace [0,1,2,3,4,5,6,7,8,9,10,11]) ≠ [0,1,2,3,4,5,6,7,8,9,10,11] :=
  conv24_inplace_refines_mapping [0,1,2,3,4,5,6,7,8,9,10,11] (by decide)

/-! ### Chain-function helpers -/

lemma chain_raw_preserves_header (env : Env) (dec : GstDvdLpcmDec) (buf : InBuf) :
    (gst_dvdlpcmdec_chain_raw env dec buf).dec.header = dec.header := by
  rcases buf with ⟨data, ts⟩
  simp only [gst_dvdlpcmdec_chain_raw]
  split_ifs <;> cases ts <;> rfl

lemma chain_raw_ok_of_supported (env : Env) (dec : GstDvdLpcmDec) (buf : InBuf)
    (hu : env.srcUsable = true) (hr : dec.rate ≠ 0) (ha : env.allocOk = true)
    (hw : dec.width = 16 ∨ dec.width = 20 ∨ dec.width = 24) :
    (gst_dvdlpcmdec_chain_raw env dec buf).flow = GstFlow.ok ∧
    (gst_dvdlpcmdec_chain_raw env dec buf).outs.length = 1 := by
  rcases buf with ⟨data, ts⟩
  simp only [gst_dvdlpcmdec_chain_raw]
  rw [if_neg hr, if_neg (by rw [hu]; exact fun hc => Bool.false_ne_true hc.symm)]
  rcases hw with hw | hw | hw <;> simp [hw, ha]

lemma negotiate_same (env : Env) (dec : GstDvdLpcmDec) (hdr : Nat) (h : hdr = dec.header) :
    negotiate env dec hdr = (dec, 0, true) := by
  simp [negotiate, h]

lemma chain_dvd_noreneg (env : Env) (dec : GstDvdLpcmDec) (buf : InBuf)
    (h : header_word buf.data = dec.header) :
    gst_dvdlpcmdec_chain_dvd env dec buf =
      ⟨(forward env dec buf.data buf.timestamp).1,
       (forward env dec buf.data buf.timestamp).2.1,
       (forward env dec buf.data buf.timestamp).2.2.1,
       (forward env dec buf.data buf.timestamp).2.2.2, 0⟩ := by
  simp only [gst_dvdlpcmdec_chain_dvd, negotiate_same env dec _ h]
  rfl

lemma chain_dvd_reject (env : Env) (dec : GstDvdLpcmDec) (buf : InBuf)
    (hne : header_word buf.data ≠ dec.header)
    (hrej : env.acceptCaps (parse_header dec (header_word buf.data)).rate
        (parse_header dec (header_word buf.data)).channels
        (parse_header dec (header_word buf.data)).out_width = false) :
    gst_dvdlpcmdec_chain_dvd env dec buf =
      ⟨parse_header dec (header_word buf.data), [], [], GstFlow.error, 1⟩ := by
  simp only [gst_dvdlpcmdec_chain_dvd, negotiate]
  rw [if_neg hne]
  have hite : (if env.acceptCaps (parse_header dec (header_word buf.data)).rate
        (parse_header dec (header_word buf.data)).channels
        (parse_header dec (header_word buf.data)).out_width = true then
      ({ parse_header dec (header_word buf.data) with header := header_word buf.data },
        (1 : Nat), true)
      else (parse_header dec (header_word buf.data), 1, false))
      = (parse_header dec (header_word buf.data), 1, false) :=
    if_neg (by rw [hrej]; exact Bool.false_ne_true)
  rw [hite]
  rfl

lemma chain_dvd_accept (env : Env) (dec : GstDvdLpcmDec) (buf : InBuf)
    (hne : header_word buf.data ≠ dec.header)
    (hacc : env.acceptCaps (parse_header dec (header_word buf.data)).rate
        (parse_header dec (header_word buf.data)).channels
        (parse_header dec (header_word buf.data)).out_width = true) :
    gst_dvdlpcmdec_chain_dvd env dec buf =
      (let d := { parse_header dec (header_word buf.data) with header := header_word buf.data }
       ⟨(forward env d buf.data buf.timestamp).1,
        (forward env d buf.data buf.timestamp).2.1,
        (forward env d buf.data buf.timestamp).2.2.1,
        (forward env d buf.data buf.timestamp).2.2.2, 1⟩) := by
  simp only [gst_dvdlpcmdec_chain_dvd, negotiate]
  rw [if_neg hne]
  have hite : (if env.acceptCaps (parse_header dec (header_word buf.data)).rate
        (parse_header dec (header_word buf.data)).channels
        (parse_header dec (header_word buf.data)).out_width = true then
      ({ parse_header dec (header_word buf.data) with header := header_word buf.data },
        (1 : Nat), true)
      else (parse_header dec (header_word buf.data), 1, false))
      = ({ parse_header dec (header_word buf.data) with header := header_word buf.data },
        (1 : Nat), true) :=
    if_pos hacc
  rw [hite]
  rfl

lemma chain_dvd_renegs (env : Env) (dec : GstDvdLpcmDec) (buf : InBuf) :
    (gst_dvdlpcmdec_chain_dvd env dec buf).renegs =
      if header_word buf.data = dec.header then 0 else 1 := by
  by_cases hh : header_word buf.data = dec.header
  · rw [chain_dvd_noreneg env dec buf hh, if_pos hh]
  · rw [if_neg hh]
    by_cases hacc : env.acceptCaps (parse_header dec (header_word buf.data)).rate
        (parse_header dec (header_word buf.data)).channels
        (parse_header dec (header_word buf.data)).out_width = true
    · rw [chain_dvd_accept env dec buf hh hacc]
    · rw [chain_dvd_reject env dec buf hh (by
        cases hv : env.acceptCaps (parse_header dec (header_word buf.data)).rate
          (parse_header dec (header_word buf.data)).channels
          (parse_header dec (header_word buf.data)).out_width
        · rfl
        · exact absurd hv hacc)]

lemma forward_dec_header (env : Env) (dec : GstDvdLpcmDec) (data : List Nat) (ts : Option Nat) :
    (forward env dec data ts).1.header = dec.header := by
  simp only [forward]
  by_cases hfa : 4 < first_access data
  · rw [if_pos hfa]
    by_cases hlen : 0 < first_access data - 4
    · rw [if_pos hlen]
      by_cases hfl : (gst_dvdlpcmdec_chain_raw env dec
          ⟨(data.drop 5).take (first_access data - 4), none⟩).flow = GstFlow.ok
      · rw [if_pos hfl]
        show (gst_dvdlpcmdec_chain_raw env _ _).dec.header = dec.header
        rw [chain_raw_preserves_header, chain_raw_preserves_header]
      · rw [if_neg hfl]
        exact chain_raw_preserves_header env dec _
    · rw [if_neg hlen]
      exact chain_raw_preserves_header env dec _
  · rw [if_neg hfa]
    exact chain_raw_preserves_header env dec _

lemma chain_raw_16_ok (env : Env) (dec : GstDvdLpcmDec) (buf : InBuf)
    (hu : env.srcUsable = true) (hr : dec.rate ≠ 0) (hw : dec.width = 16) :
    (gst_dvdlpcmdec_chain_raw env dec buf).flow = GstFlow.ok := by
  rcases buf with ⟨data, ts⟩
  simp only [gst_dvdlpcmdec_chain_raw]
  rw [if_neg hr, if_neg (by rw [hu]; exact fun hc => Bool.false_ne_true hc.symm)]
  simp [hw]

lemma forward_trace_two (env : Env) (dec : GstDvdLpcmDec) (data : List Nat) (ts : Option Nat)
    (hfa : 4 < first_access data)
    (hu : env.srcUsable = true) (hr : dec.rate ≠ 0) (hw : dec.width = 16) :
    (forward env dec data ts).2.1 =
      [⟨(data.drop 5).take (first_access data - 4), none⟩,
       ⟨data.drop (5 + (first_access data - 4)), ts⟩] := by
  simp only [forward]
  rw [if_pos hfa, if_pos (show 0 < first_access data - 4 from by omega),
    if_pos (chain_raw_16_ok env dec ⟨(data.drop 5).take (first_access data - 4), none⟩ hu hr hw)]

/-- C5: on a DVD chunk whose `first_access` offset exceeds 4 (processing in
the configured 16-bit state with a usable source pad and an unchanged
header word), the framer forwards exactly two sub-buffers to the converter,
in order: first the `first_access - 4` bytes following the 5-byte header
with no timestamp, then the remaining bytes carrying the chunk's original
timestamp. -/
theorem chain_dvd_splits_two_subranges (env : Env) (dec : GstDvdLpcmDec) (buf : InBuf)
    (h5 : 5 ≤ buf.data.length) (hfa : 4 < first_access buf.data)
    (hhdr : header_word buf.data = dec.header)
    (hu : env.srcUsable = true) (hr : dec.rate ≠ 0) (hw : dec.width = 16) :
    (gst_dvdlpcmdec_chain_dvd env dec buf).trace =
      [⟨(buf.data.drop 5).take (first_access buf.data - 4), none⟩,
       ⟨buf.data.drop (5 + (first_access buf.data - 4)), buf.timestamp⟩] := by
  rw [chain_dvd_noreneg env dec buf hhdr]
  exact forward_trace_two env dec buf.data buf.timestamp hfa hu hr hw

theorem chain_dvd_splits_two_subranges_witness :
    (gst_dvdlpcmdec_chain_dvd ⟨true, true, fun _ _ _ => true⟩
        ⟨48000, 1, 16, 16, 0, false, false, 0, 0⟩
        ⟨[0, 6, 0, 0, 0, 10, 11, 12, 13], some 555⟩).trace =
      [⟨(([0, 6, 0, 0, 0, 10, 11, 12, 13] : List Nat).drop 5).take
          (first_access [0, 6, 0, 0, 0, 10, 11, 12, 13] - 4), none⟩,
       ⟨([0, 6, 0, 0, 0, 10, 11, 12, 13] : List Nat).drop
          (5 + (first_access [0, 6, 0, 0, 0, 10, 11, 12, 13] - 4)), some 555⟩] :=
  chain_dvd_splits_two_subranges ⟨true, true, fun _ _ _ => true⟩
    ⟨48000, 1, 16, 16, 0, false, false, 0, 0⟩
    ⟨[0, 6, 0, 0, 0, 10, 11, 12, 13], some 555⟩
    (by decide) (by decide) (by decide) rfl (by decide) rfl

/-- C6 counterexample: on a chunk with `first_access = 4` and an explicit
timestamp (777), the single forwarded sub-buffer does NOT carry the chunk's
original timestamp — the code takes the `first_access ≤ 4` branch and marks
it timestamp-unknown. -/
theorem chain_dvd_offset4_timestamp_cex :
    (gst_dvdlpcmdec_chain_dvd ⟨true, true, fun _ _ _ => true⟩
        ⟨48000, 1, 16, 16, 0, false, false, 0, 0⟩
        ⟨[0, 4, 0, 0, 0, 9, 9], some 777⟩).trace
      ≠ [⟨[9, 9], some 777⟩] := by decide

/-- C6 amended: on a DVD chunk with `first_access = 4` (header word
unchanged), the framer emits zero sub-ranges marked as belonging to the
previous access unit and forwards exactly one sub-buffer covering all bytes
after the 5-byte header, marked timestamp-unknown (the chunk's original
timestamp is NOT forwarded: values `≤ 4` all take the no-timestamp
branch). -/
theorem chain_dvd_offset4_single_subrange (env : Env) (dec : GstDvdLpcmDec) (buf : InBuf)
    (h5 : 5 ≤ buf.data.length) (hfa : first_access buf.data = 4)
    (hhdr : header_word buf.data = dec.header) :
    (gst_dvdlpcmdec_chain_dvd env dec buf).trace = [⟨buf.data.drop 5, none⟩] := by
  rw [chain_dvd_noreneg env dec buf hhdr]
  show (forward env dec buf.data buf.timestamp).2.1 = _
  simp only [forward]
  rw [if_neg (show ¬ 4 < first_access buf.data from by omega)]

theorem chain_dvd_offset4_single_subrange_witness :
    (gst_dvdlpcmdec_chain_dvd ⟨true, true, fun _ _ _ => true⟩
        ⟨48000, 1, 16, 16, 0, false, false, 0, 0⟩
        ⟨[0, 4, 0, 0, 0, 9, 9], some 777⟩).trace =
      [⟨([0, 4, 0, 0, 0, 9, 9] : List Nat).drop 5, none⟩] :=
  chain_dvd_offset4_single_subrange ⟨true, true, fun _ _ _ => true⟩
    ⟨48000, 1, 16, 16, 0, false, false, 0, 0⟩
    ⟨[0, 4, 0, 0, 0, 9, 9], some 777⟩ (by decide) (by decide) (by decide)

/-- C7: the framer proposes a renegotiation exactly when the chunk's header
word differs from the stored one (so an identical consecutive header word
proposes none, a differing one proposes exactly one); if the proposal is
rejected the chunk fails with an error before any sub-buffer is forwarded
or any data emitted; and whenever negotiation is not needed or succeeds the
stored header word afterwards equals the chunk's header word. -/
theorem chain_dvd_renegotiation_iff (env : Env) (dec : GstDvdLpcmDec) (buf : InBuf) :
    ((gst_dvdlpcmdec_chain_dvd env dec buf).renegs
        = if header_word buf.data = dec.header then 0 else 1) ∧
    (header_word buf.data ≠ dec.header →
      env.acceptCaps (parse_header dec (header_word buf.data)).rate
          (parse_header dec (header_word buf.data)).channels
          (parse_header dec (header_word buf.data)).out_width = false →
      (gst_dvdlpcmdec_chain_dvd env dec buf).flow = GstFlow.error ∧
      (gst_dvdlpcmdec_chain_dvd env dec buf).outs = [] ∧
      (gst_dvdlpcmdec_chain_dvd env dec buf).trace = []) ∧
    ((header_word buf.data = dec.header ∨
        env.acceptCaps (parse_header dec (header_word buf.data)).rate
          (parse_header dec (header_word buf.data)).channels
          (parse_header dec (header_word buf.data)).out_width = true) →
      (gst_dvdlpcmdec_chain_dvd env dec buf).dec.header = header_word buf.data) := by
  refine ⟨chain_dvd_renegs env dec buf, ?_, ?_⟩
  · intro hne hrej
    rw [chain_dvd_reject env dec buf hne hrej]
    exact ⟨rfl, rfl, rfl⟩
  · intro hor
    by_cases hh : header_word buf.data = dec.header
    · rw [chain_dvd_noreneg env dec buf hh]
      show (forward env dec buf.data buf.timestamp).1.header = header_word buf.data
      rw [forward_dec_header, hh]
    · rcases hor with hh' | hacc
      · exact absurd hh' hh
      · rw [chain_dvd_accept env dec buf hh hacc]
        show (forward env
            { parse_header dec (header_word buf.data) with header := header_word buf.data }
            buf.data buf.timestamp).1.header = header_word buf.data
        rw [forward_dec_header]

theorem chain_dvd_renegotiation_iff_witness :
    ((gst_dvdlpcmdec_chain_dvd ⟨true, true, fun _ _ _ => false⟩
        ⟨48000, 1, 16, 16, 0, false, false, 0, 0⟩ ⟨[0, 4, 0, 0, 5], some 3⟩).renegs
        = if header_word [0, 4, 0, 0, 5] = (0 : Nat) then 0 else 1) ∧
    (header_word [0, 4, 0, 0, 5] ≠ (0 : Nat) →
      (fun (_ _ _ : Nat) => false)
          (parse_header ⟨48000, 1, 16, 16, 0, false, false, 0, 0⟩ (header_word [0, 4, 0, 0, 5])).rate
          (parse_header ⟨48000, 1, 16, 16, 0, false, false, 0, 0⟩ (header_word [0, 4, 0, 0, 5])).channels
          (parse_header ⟨48000, 1, 16, 16, 0, false, false, 0, 0⟩ (header_word [0, 4, 0, 0, 5])).out_width = false →
      (gst_dvdlpcmdec_chain_dvd ⟨true, true, fun _ _ _ => false⟩
        ⟨48000, 1, 16, 16, 0, false, false, 0, 0⟩ ⟨[0, 4, 0, 0, 5], some 3⟩).flow = GstFlow.error ∧
      (gst_dvdlpcmdec_chain_dvd ⟨true, true, fun _ _ _ => false⟩
        ⟨48000, 1, 16, 16, 0, false, false, 0, 0⟩ ⟨[0, 4, 0, 0, 5], some 3⟩).outs = [] ∧
      (gst_dvdlpcmdec_chain_dvd ⟨true, true, fun _ _ _ => false⟩
        ⟨48000, 1, 16, 16, 0, false, false, 0, 0⟩ ⟨[0, 4, 0, 0, 5], some 3⟩).trace = []) ∧
    ((header_word [0, 4, 0, 0, 5] = (0 : Nat) ∨
        (fun (_ _ _ : Nat) => false)
          (parse_header ⟨48000, 1, 16, 16, 0, false, false, 0, 0⟩ (header_word [0, 4, 0, 0, 5])).rate
          (parse_header ⟨48000, 1, 16, 16, 0, false, false, 0, 0⟩ (header_word [0, 4, 0, 0, 5])).channels
          (parse_header ⟨48000, 1, 16, 16, 0, false, false, 0, 0⟩ (header_word [0, 4, 0, 0, 5])).out_width = true) →
      (gst_dvdlpcmdec_chain_dvd ⟨true, true, fun _ _ _ => false⟩
        ⟨48000, 1, 16, 16, 0, false, false, 0, 0⟩ ⟨[0, 4, 0, 0, 5], some 3⟩).dec.header
          = header_word [0, 4, 0, 0, 5]) :=
  chain_dvd_renegotiation_iff ⟨true, true, fun _ _ _ => false⟩
    ⟨48000, 1, 16, 16, 0, false, false, 0, 0⟩ ⟨[0, 4, 0, 0, 5], some 3⟩

/-- C9 counterexample: a 1-byte payload is not a whole number of 16-bit
mono frames (frame size 2 bytes), yet `gst_dvdlpcmdec_chain_raw` succeeds
and emits output — the code contains no malformed-length check and no
malformed-input error path. -/
theorem chain_raw_malformed_length_cex :
    ([0x12] : List Nat).length % 2 ≠ 0 ∧
    (gst_dvdlpcmdec_chain_raw ⟨true, true, fun _ _ _ => true⟩
        ⟨48000, 1, 16, 16, 0, false, false, 0, 0⟩ ⟨[0x12], none⟩).flow = GstFlow.ok ∧
    (gst_dvdlpcmdec_chain_raw ⟨true, true, fun _ _ _ => true⟩
        ⟨48000, 1, 16, 16, 0, false, false, 0, 0⟩ ⟨[0x12], none⟩).outs ≠ [] := by
  decide

/-- C9 amended: the converter performs no whole-frame length check at all:
for every payload (whatever its length) under a usable pad, a configured
rate, successful allocation and a supported width, conversion succeeds and
pushes exactly one buffer (sample counts use truncating integer division);
on the 16-bit path the payload is emitted unchanged byte for byte.  It
never fails with a malformed-input error because no such error exists in
the code. -/
theorem chain_raw_no_length_check (env : Env) (dec : GstDvdLpcmDec) (buf : InBuf)
    (hu : env.srcUsable = true) (hr : dec.rate ≠ 0) (ha : env.allocOk = true)
    (hw : dec.width = 16 ∨ dec.width = 20 ∨ dec.width = 24) :
    (gst_dvdlpcmdec_chain_raw env dec buf).flow = GstFlow.ok ∧
    (gst_dvdlpcmdec_chain_raw env dec buf).outs.length = 1 ∧
    (dec.width = 16 →
      (gst_dvdlpcmdec_chain_raw env dec buf).outs.map OutBuf.data = [buf.data]) := by
  refine ⟨(chain_raw_ok_of_supported env dec buf hu hr ha hw).1,
    (chain_raw_ok_of_supported env dec buf hu hr ha hw).2, ?_⟩
  intro h16
  rcases buf with ⟨data, ts⟩
  simp only [gst_dvdlpcmdec_chain_raw]
  rw [if_neg hr, if_neg (by rw [hu]; exact fun hc => Bool.false_ne_true hc.symm)]
  simp [h16]

theorem chain_raw_no_length_check_witness :
    (gst_dvdlpcmdec_chain_raw ⟨true, true, fun _ _ _ => true⟩
        ⟨48000, 1, 16, 16, 0, false, false, 0, 0⟩ ⟨[1, 2, 3], none⟩).flow = GstFlow.ok ∧
    (gst_dvdlpcmdec_chain_raw ⟨true, true, fun _ _ _ => true⟩
        ⟨48000, 1, 16, 16, 0, false, false, 0, 0⟩ ⟨[1, 2, 3], none⟩).outs.length = 1 ∧
    ((16 : Nat) = 16 →
      (gst_dvdlpcmdec_chain_raw ⟨true, true, fun _ _ _ => true⟩
        ⟨48000, 1, 16, 16, 0, false, false, 0, 0⟩ ⟨[1, 2, 3], none⟩).outs.map OutBuf.data
          = [[1, 2, 3]]) :=
  chain_raw_no_length_check ⟨true, true, fun _ _ _ => true⟩
    ⟨48000, 1, 16, 16, 0, false, false, 0, 0⟩ ⟨[1, 2, 3], none⟩
    rfl (by decide) rfl (Or.inl rfl)

/-- C10: when a changed header word is parsed but downstream rejects the
proposed format, the chunk fails with an error, the stored header word is
NOT updated, while rate, channels, width, out_width, dynamic_range,
emphasis and mute HAVE already been overwritten from the new header word
(the state update is not atomic on error); consequently feeding the same
chunk again proposes renegotiation again. -/
theorem chain_dvd_nonatomic_on_negotiation_failure (env : Env) (dec : GstDvdLpcmDec)
    (buf : InBuf)
    (hne : header_word buf.data ≠ dec.header)
    (hrej : env.acceptCaps (parse_header dec (header_word buf.data)).rate
        (parse_header dec (header_word buf.data)).channels
        (parse_header dec (header_word buf.data)).out_width = false) :
    (gst_dvdlpcmdec_chain_dvd env dec buf).flow = GstFlow.error ∧
    (gst_dvdlpcmdec_chain_dvd env dec buf).outs = [] ∧
    (gst_dvdlpcmdec_chain_dvd env dec buf).dec.header = dec.header ∧
    (gst_dvdlpcmdec_chain_dvd env dec buf).dec.rate
        = (parse_header dec (header_word buf.data)).rate ∧
    (gst_dvdlpcmdec_chain_dvd env dec buf).dec.channels
        = (parse_header dec (header_word buf.data)).channels ∧
    (gst_dvdlpcmdec_chain_dvd env dec buf).dec.width
        = (parse_header dec (header_word buf.data)).width ∧
    (gst_dvdlpcmdec_chain_dvd env dec buf).dec.out_width
        = (parse_header dec (header_word buf.data)).out_width ∧
    (gst_dvdlpcmdec_chain_dvd env dec buf).dec.dynamic_range
        = (parse_header dec (header_word buf.data)).dynamic_range ∧
    (gst_dvdlpcmdec_chain_dvd env dec buf).dec.emphasis
        = (parse_header dec (header_word buf.data)).emphasis ∧
    (gst_dvdlpcmdec_chain_dvd env dec buf).dec.mute
        = (parse_header dec (header_word buf.data)).mute ∧
    (gst_dvdlpcmdec_chain_dvd env
        (gst_dvdlpcmdec_chain_dvd env dec buf).dec buf).renegs = 1 := by
  rw [chain_dvd_reject env dec buf hne hrej]
  refine ⟨rfl, rfl, rfl, rfl, rfl, rfl, rfl, rfl, rfl, rfl, ?_⟩
  rw [chain_dvd_renegs]
  exact if_neg hne

theorem chain_dvd_nonatomic_on_negotiation_failure_witness :
    (gst_dvdlpcmdec_chain_dvd ⟨true, true, fun _ _ _ => false⟩
        ⟨0, 0, 0, 0, 0, false, false, 0, 0⟩ ⟨[0, 4, 0, 0, 7], none⟩).flow = GstFlow.error ∧
    (gst_dvdlpcmdec_chain_dvd ⟨true, true, fun _ _ _ => false⟩
        ⟨0, 0, 0, 0, 0, false, false, 0, 0⟩ ⟨[0, 4, 0, 0, 7], none⟩).outs = [] ∧
    (gst_dvdlpcmdec_chain_dvd ⟨true, true, fun _ _ _ => false⟩
        ⟨0, 0, 0, 0, 0, false, false, 0, 0⟩ ⟨[0, 4, 0, 0, 7], none⟩).dec.header = (0 : Nat) ∧
    (gst_dvdlpcmdec_chain_dvd ⟨true, true, fun _ _ _ => false⟩
        ⟨0, 0, 0, 0, 0, false, false, 0, 0⟩ ⟨[0, 4, 0, 0, 7], none⟩).dec.rate
        = (parse_header ⟨0, 0, 0, 0, 0, false, false, 0, 0⟩ (header_word [0, 4, 0, 0, 7])).rate ∧
    (gst_dvdlpcmdec_chain_dvd ⟨true, true, fun _ _ _ => false⟩
        ⟨0, 0, 0, 0, 0, false, false, 0, 0⟩ ⟨[0, 4, 0, 0, 7], none⟩).dec.channels
        = (parse_header ⟨0, 0, 0, 0, 0, false, false, 0, 0⟩ (header_word [0, 4, 0, 0, 7])).channels ∧
    (gst_dvdlpcmdec_chain_dvd ⟨true, true, fun _ _ _ => false⟩
        ⟨0, 0, 0, 0, 0, false, false, 0, 0⟩ ⟨[0, 4, 0, 0, 7], none⟩).dec.width
        = (parse_header ⟨0, 0, 0, 0, 0, false, false, 0, 0⟩ (header_word [0, 4, 0, 0, 7])).width ∧
    (gst_dvdlpcmdec_chain_dvd ⟨true, true, fun _ _ _ => false⟩
        ⟨0, 0, 0, 0, 0, false, false, 0, 0⟩ ⟨[0, 4, 0, 0, 7], none⟩).dec.out_width
        = (parse_header ⟨0, 0, 0, 0, 0, false, false, 0, 0⟩ (header_word [0, 4, 0, 0, 7])).out_width ∧
    (gst_dvdlpcmdec_chain_dvd ⟨true, true, fun _ _ _ => false⟩
        ⟨0, 0, 0, 0, 0, false, false, 0, 0⟩ ⟨[0, 4, 0, 0, 7], none⟩).dec.dynamic_range
        = (parse_header ⟨0, 0, 0, 0, 0, false, false, 0, 0⟩ (header_word [0, 4, 0, 0, 7])).dynamic_range ∧
    (gst_dvdlpcmdec_chain_dvd ⟨true, true, fun _ _ _ => false⟩
        ⟨0, 0, 0, 0, 0, false, false, 0, 0⟩ ⟨[0, 4, 0, 0, 7], none⟩).dec.emphasis
        = (parse_header ⟨0, 0, 0, 0, 0, false, false, 0, 0⟩ (header_word [0, 4, 0, 0, 7])).emphasis ∧
    (gst_dvdlpcmdec_chain_dvd ⟨true, true, fun _ _ _ => false⟩
        ⟨0, 0, 0, 0, 0, false, false, 0, 0⟩ ⟨[0, 4, 0, 0, 7], none⟩).dec.mute
        = (parse_header ⟨0, 0, 0, 0, 0, false, false, 0, 0⟩ (header_word [0, 4, 0, 0, 7])).mute ∧
    (gst_dvdlpcmdec_chain_dvd ⟨true, true, fun _ _ _ => false⟩
        (gst_dvdlpcmdec_chain_dvd ⟨true, true, fun _ _ _ => false⟩
          ⟨0, 0, 0, 0, 0, false, false, 0, 0⟩ ⟨[0, 4, 0, 0, 7], none⟩).dec
        ⟨[0, 4, 0, 0, 7], none⟩).renegs = 1 :=
  chain_dvd_nonatomic_on_negotiation_failure ⟨true, true, fun _ _ _ => false⟩
    ⟨0, 0, 0, 0, 0, false, false, 0, 0⟩ ⟨[0, 4, 0, 0, 7], none⟩ (by decide) rfl
